import Mathlib

/-!
Verification of the bc_dashboard comparison engine and brand classifier.

The definitions below are a shallow embedding of the backend routes
`get_products_comparison.js` and `get_brands.js`: the SQL queries are modelled
as list operations over an explicit database value, SQL NUMERIC values as
rationals, SQL NULL as `Option`, and the JavaScript response shaping as pure
functions producing structured payloads.  Descriptive pass-through columns
(segment, notes, owner, review dates, recommended_price, stock) are carried by
no verified property and are omitted from the row model; `ORDER BY` clauses
only permute result rows and no verified property depends on row order, so
they are not modelled either.
-/

namespace BC

/-- a row of the groupid_performance table, as read by the routes.  The route
guards every metric column against SQL NULL (`NULLS LAST`, `|| 0`,
conditional `parseFloat`), so the metric columns are modelled as optional. -/
structure GPRow where
  groupid : String
  channel : String
  annual_profit : Option ℚ
  sold_qty : Option ℤ
  avg_profit_per_unit : Option ℚ
  brand : Option String
  avg_gross_margin : Option ℚ
deriving Repr, DecidableEq

/-- a row of the groupid_performance_week snapshot table.  Modelled from the
spec: the database schema lives in dashboard_library, which is not among the
sources here; the spec data model says a PeriodSnapshot holds annual_profit,
sold_qty and avg_profit_per_unit as they stood at that period, as plain
(non-null) decimals, so the metric columns are not optional. -/
structure WeekRow where
  groupid : String
  channel : String
  annual_profit : ℚ
  sold_qty : ℤ
  avg_profit_per_unit : ℚ
  year_week : String
deriving Repr, DecidableEq

/-- the slice of the skusummary table used by the season filter join. -/
structure SkuRow where
  groupid : String
  season : Option String
deriving Repr, DecidableEq

/-- the relational store the routes query. -/
structure DB where
  gp : List GPRow
  gpw : List WeekRow
  sku : List SkuRow
deriving Repr, DecidableEq

/-- the request body of POST /get_products_comparison; a missing field is
`none`. -/
structure Request where
  comparison_period : Option String
  season_filter : Option String
  season_filter_exclude : Option String
  brand_filter : Option String
deriving Repr, DecidableEq

/-- JavaScript truthiness of an optional string field: null, undefined and
the empty string are falsy. -/
def truthyStr : Option String → Bool
  | none => false
  | some s => s ≠ ""

/-- the JavaScript idiom `x || dflt` on an optional string field. -/
def jsOrElse (o : Option String) (dflt : String) : String :=
  match o with
  | some s => if s = "" then dflt else s
  | none => dflt

/-- byte-wise lexicographic strict order on character lists, modelling the
collation used by ORDER BY on year_week keys. -/
def charListLt : List Char → List Char → Bool
  | [], [] => false
  | [], _ :: _ => true
  | _ :: _, [] => false
  | a :: as, b :: bs =>
    if a.toNat < b.toNat then true
    else if b.toNat < a.toNat then false
    else charListLt as bs

/-- lexicographic strict order on strings. -/
def strLt (a b : String) : Bool := charListLt a.toList b.toList

/-- models `ORDER BY year_week DESC LIMIT 1` over the listed keys. -/
def sqlMax : List String → Option String
  | [] => none
  | x :: xs => some (xs.foldl (fun a b => if strLt a b then b else a) x)

/-- models `ORDER BY year_week ASC LIMIT 1` over the listed keys. -/
def sqlMin : List String → Option String
  | [] => none
  | x :: xs => some (xs.foldl (fun a b => if strLt b a then b else a) x)

/-- year_week keys present in groupid_performance_week for channel SHP,
the source of both the currentWeekQuery and the earliestWeekQuery. -/
def shpWeeks (db : DB) : List String :=
  (db.gpw.filter (fun w => decide (w.channel = "SHP"))).map (fun w => w.year_week)

/-- snapshot rows for channel SHP at a given year_week key: the rows counted
by checkWeekQuery and selected by previous_week_data. -/
def snapshotRowsAt (db : DB) (yw : String) : List WeekRow :=
  db.gpw.filter (fun w => decide (w.channel = "SHP") && decide (w.year_week = yw))

/-- splits a string at the first occurrence of a separator, returning the
part before it and everything after it. -/
def splitFirst (sep : List Char) : List Char → Option (List Char × List Char)
  | [] => none
  | c :: cs =>
    if sep.isPrefixOf (c :: cs) then some ([], (c :: cs).drop sep.length)
    else
      match splitFirst sep cs with
      | some (pre, post) => some (c :: pre, post)
      | none => none

/-- models the JavaScript destructuring `const [y, w] = s.split('-W')`: the
year part and, when the separator occurs, the remainder after its first
occurrence.  JavaScript split would cut the remainder again at the next
separator, but both parts are only ever fed to parseInt, which stops at the
first non-digit, so keeping the whole remainder is extensionally faithful. -/
def splitYW (s : String) : String × Option String :=
  match splitFirst ['-', 'W'] s.toList with
  | some (pre, post) => (String.mk pre, some (String.mk post))
  | none => (s, none)

/-- a JavaScript number as it arises in this route: an integer, or NaN
(modelled as `none`). -/
abbrev JSNum := Option ℤ

/-- the leading decimal digits of a string. -/
def leadingDigits (s : String) : List Char := s.toList.takeWhile Char.isDigit

/-- numeric value of a list of decimal digits. -/
def digitsVal (l : List Char) : ℕ := l.foldl (fun n c => 10 * n + (c.toNat - 48)) 0

/-- models JavaScript parseInt on the strings this route feeds it (substrings
of year_week keys, which carry no sign or leading whitespace): the value of
the longest digit prefix, or NaN when there is none. -/
def parseIntJS (s : String) : JSNum :=
  match leadingDigits s with
  | [] => none
  | l => some (digitsVal l : ℤ)

/-- parseInt applied to a possibly-undefined string. -/
def parseIntOpt (o : Option String) : JSNum :=
  match o with
  | some s => parseIntJS s
  | none => none

/-- subtraction on JavaScript numbers; NaN propagates. -/
def jsSub (a b : JSNum) : JSNum :=
  match a, b with
  | some x, some y => some (x - y)
  | _, _ => none

/-- the comparison `a < b` on JavaScript numbers; any comparison with NaN is
false. -/
def jsLtNum (a b : JSNum) : Bool :=
  match a, b with
  | some x, some y => x < y
  | _, _ => false

/-- rendering of a JavaScript number in a template string. -/
def jsNumToString : JSNum → String
  | none => "NaN"
  | some z => toString z

/-- models `.toString().padStart(2, '0')`. -/
def padStart2 (s : String) : String :=
  if s.length < 2 then String.mk (List.replicate (2 - s.length) '0') ++ s else s

/-- the previous-week candidate key computed by the non-month branch of the
route: week number minus one, rolling over to week 52 of the previous year
when the decremented week number drops below 1. -/
def weekCandidate (acw : String) : String :=
  let actualWeekNum := parseIntOpt (splitYW acw).2
  let prevWeekNum := jsSub actualWeekNum (some 1)
  let prevYear := parseIntJS (splitYW acw).1
  let rolled := jsLtNum prevWeekNum (some 1)
  let py := if rolled then jsSub prevYear (some 1) else prevYear
  let pw : JSNum := if rolled then some 52 else prevWeekNum
  jsNumToString py ++ "-W" ++ padStart2 (jsNumToString pw)

/-- outcome of period resolution: the comparison week key (none when no
comparison is possible) and the label shown to the user. -/
structure Resolution where
  comparisonWeek : Option String
  comparisonLabel : String
deriving Repr, DecidableEq

/-- the first stage of period resolution: the month branch picks the
earliest available key when it differs from the current one; every other
granularity string takes the previous-week branch. -/
def resolveBase (db : DB) (comparisonPeriod : String) (actualCurrentWeek : String) :
    Resolution :=
  let actualWeekNum := parseIntOpt (splitYW actualCurrentWeek).2
  if comparisonPeriod = "month" then
    match sqlMin (shpWeeks db) with
    | some earliestWeek =>
      if earliestWeek ≠ actualCurrentWeek then
        let oldWeekNum := parseIntOpt (splitYW earliestWeek).2
        let weeksBack := jsSub actualWeekNum oldWeekNum
        { comparisonWeek := some earliestWeek
          comparisonLabel :=
            if weeksBack = some 1 then "Last Week"
            else jsNumToString weeksBack ++ " weeks ago" }
      else
        { comparisonWeek := none, comparisonLabel := "No comparison data available" }
    | none =>
      { comparisonWeek := none, comparisonLabel := "No comparison data available" }
  else
    { comparisonWeek := some (weekCandidate actualCurrentWeek)
      comparisonLabel := "Previous Week" }

/-- the second stage of period resolution: only when the granularity string
is exactly "week", verify the candidate comparison week has at least one
snapshot row, discarding it otherwise. -/
def applyWeekCheck (db : DB) (comparisonPeriod : String) (r : Resolution) : Resolution :=
  match r.comparisonWeek with
  | some cw =>
    if comparisonPeriod = "week" then
      if 0 < (snapshotRowsAt db cw).length then r
      else { comparisonWeek := none, comparisonLabel := "No comparison data available" }
    else r
  | none => r

/-- the period-resolution logic of get_products_comparison, given the
granularity string and the already-fetched current week key. -/
def resolveComparison (db : DB) (comparisonPeriod : String) (actualCurrentWeek : String) :
    Resolution :=
  applyWeekCheck db comparisonPeriod (resolveBase db comparisonPeriod actualCurrentWeek)

/-- the fixed named-brand allow-list shared by the brand filter of the
comparison route and by get_brands. -/
def brandAllowList : List String :=
  ["Birkenstock", "Rieker", "Lunar", "Crocs", "Hotter", "Skechers"]

/-- the brand WHERE condition of both product queries: UKD selects rows whose
brand is NULL, empty, or outside the allow-list; any other non-empty filter
selects rows with exactly that brand (SQL equality, so a NULL brand never
matches). -/
def passesBrand (brandFilter : Option String) (g : GPRow) : Bool :=
  if truthyStr brandFilter then
    let b := brandFilter.getD ""
    if b = "UKD" then
      match g.brand with
      | none => true
      | some s => decide (s = "") || decide (s ∉ brandAllowList)
    else decide (g.brand = some b)
  else true

/-- the season WHERE condition evaluated on the (possibly absent) joined
skusummary row: an include filter demands an equal non-null season, an
exclude filter passes NULL seasons and absent join partners. -/
def seasonCond (sf sfe : Option String) (osku : Option SkuRow) : Bool :=
  if truthyStr sf then
    match osku with
    | some sk => decide (sk.season = some (sf.getD ""))
    | none => false
  else if truthyStr sfe then
    match osku with
    | some sk => decide (sk.season = none) || decide (sk.season ≠ some (sfe.getD ""))
    | none => true
  else true

/-- the FROM / LEFT JOIN / WHERE pipeline shared by both product queries:
groupid_performance rows of channel SHP with the brand condition applied,
joined against skusummary only when a season filter is active (a row without
a join partner survives as the all-NULL partner of the LEFT JOIN). -/
def currentRows (db : DB) (sf sfe bf : Option String) : List GPRow :=
  let base := db.gp.filter (fun g => decide (g.channel = "SHP") && passesBrand bf g)
  if truthyStr sf || truthyStr sfe then
    base.flatMap (fun g =>
      let partners := db.sku.filter (fun sk => decide (sk.groupid = g.groupid))
      let joined : List (Option SkuRow) :=
        if partners.isEmpty then [none] else partners.map some
      (joined.filter (seasonCond sf sfe)).map (fun _ => g))
  else base

/-- the LEFT JOIN of one current row against previous_week_data (snapshot
rows at the comparison week), on groupid and channel. -/
def joinPrev (db : DB) (cw : String) (g : GPRow) : List (GPRow × Option WeekRow) :=
  let hits := (snapshotRowsAt db cw).filter
    (fun w => decide (w.groupid = g.groupid) && decide (w.channel = g.channel))
  if hits.isEmpty then [(g, none)] else hits.map (fun w => (g, some w))

/-- PostgreSQL ROUND(x, 2) on NUMERIC: rounds to two decimals, halves away
from zero. -/
def round2 (q : ℚ) : ℚ :=
  (((if 0 ≤ q then (⌊q * 100 + 1 / 2⌋ : ℤ) else -⌊-(q * 100) + 1 / 2⌋) : ℤ) : ℚ) / 100

/-- the SQL CASE column annual_profit_change: NULL unless the snapshot side
is present, and NULL when the current value is NULL (SQL NULL arithmetic). -/
def annualProfitChange (g : GPRow) (pwd : Option WeekRow) : Option ℚ :=
  match pwd, g.annual_profit with
  | some w, some a => some (a - w.annual_profit)
  | _, _ => none

/-- the SQL CASE column annual_profit_change_percent: guarded by a non-null,
non-zero previous value; NULL when the current value is NULL. -/
def annualProfitChangePercent (g : GPRow) (pwd : Option WeekRow) : Option ℚ :=
  match pwd, g.annual_profit with
  | some w, some a =>
    if w.annual_profit ≠ 0 then some (round2 ((a - w.annual_profit) / w.annual_profit * 100))
    else none
  | _, _ => none

/-- the SQL CASE column sold_qty_change. -/
def soldQtyChange (g : GPRow) (pwd : Option WeekRow) : Option ℤ :=
  match pwd, g.sold_qty with
  | some w, some a => some (a - w.sold_qty)
  | _, _ => none

/-- the SQL CASE column sold_qty_change_percent. -/
def soldQtyChangePercent (g : GPRow) (pwd : Option WeekRow) : Option ℚ :=
  match pwd, g.sold_qty with
  | some w, some a =>
    if w.sold_qty ≠ 0 then some (round2 (((a : ℚ) - (w.sold_qty : ℚ)) / (w.sold_qty : ℚ) * 100))
    else none
  | _, _ => none

/-- the SQL CASE column avg_profit_per_unit_change. -/
def avgProfitPerUnitChange (g : GPRow) (pwd : Option WeekRow) : Option ℚ :=
  match pwd, g.avg_profit_per_unit with
  | some w, some a => some (a - w.avg_profit_per_unit)
  | _, _ => none

/-- the SQL CASE column avg_profit_per_unit_change_percent. -/
def avgProfitPerUnitChangePercent (g : GPRow) (pwd : Option WeekRow) : Option ℚ :=
  match pwd, g.avg_profit_per_unit with
  | some w, some a =>
    if w.avg_profit_per_unit ≠ 0 then
      some (round2 ((a - w.avg_profit_per_unit) / w.avg_profit_per_unit * 100))
    else none
  | _, _ => none

/-- the previous_week object of a response row. -/
structure PrevWeek where
  annual_profit : ℚ
  sold_qty : ℤ
  avg_profit_per_unit : ℚ
  year_week : String
deriving Repr, DecidableEq

/-- the changes object of a response row; every percent field is coalesced
with `|| 0` in the route, so all fields are plain numbers here. -/
structure Changes where
  annual_profit_change : ℚ
  annual_profit_change_percent : ℚ
  sold_qty_change : ℤ
  sold_qty_change_percent : ℚ
  avg_profit_per_unit_change : ℚ
  avg_profit_per_unit_change_percent : ℚ
deriving Repr, DecidableEq

/-- a product row of the response; the pass-through descriptive fields are
omitted (see the file header). -/
structure Product where
  groupid : String
  channel : String
  annual_profit : ℚ
  sold_qty : ℤ
  avg_profit_per_unit : ℚ
  avg_gross_margin : ℚ
  previous_week : Option PrevWeek
  changes : Option Changes
deriving Repr, DecidableEq

/-- the JavaScript shaping of one joined row of the comparison query into a
response product.  `previous_week` is keyed on a non-null prev_annual_profit
column, which under the non-null snapshot model is exactly the presence of a
join partner; `changes` is keyed on a non-null annual_profit_change column;
the `|| 0` coalescing of each field is `Option.getD 0`. -/
def mkComparisonProduct (g : GPRow) (pwd : Option WeekRow) : Product :=
  { groupid := g.groupid
    channel := g.channel
    annual_profit := g.annual_profit.getD 0
    sold_qty := g.sold_qty.getD 0
    avg_profit_per_unit := g.avg_profit_per_unit.getD 0
    avg_gross_margin := g.avg_gross_margin.getD 0
    previous_week :=
      match pwd with
      | some w => some
        { annual_profit := w.annual_profit
          sold_qty := w.sold_qty
          avg_profit_per_unit := w.avg_profit_per_unit
          year_week := w.year_week }
      | none => none
    changes :=
      match annualProfitChange g pwd with
      | some c => some
        { annual_profit_change := c
          annual_profit_change_percent := (annualProfitChangePercent g pwd).getD 0
          sold_qty_change := (soldQtyChange g pwd).getD 0
          sold_qty_change_percent := (soldQtyChangePercent g pwd).getD 0
          avg_profit_per_unit_change := (avgProfitPerUnitChange g pwd).getD 0
          avg_profit_per_unit_change_percent := (avgProfitPerUnitChangePercent g pwd).getD 0 }
      | none => none }

/-- the shaping of one row of the current-only query: same coalescing, with
previous_week and changes both null. -/
def mkCurrentOnlyProduct (g : GPRow) : Product :=
  { groupid := g.groupid
    channel := g.channel
    annual_profit := g.annual_profit.getD 0
    sold_qty := g.sold_qty.getD 0
    avg_profit_per_unit := g.avg_profit_per_unit.getD 0
    avg_gross_margin := g.avg_gross_margin.getD 0
    previous_week := none
    changes := none }

/-- one block of overall statistics; the previous block reuses the same
shape, with avg_gross_margin left at its zero initialisation. -/
structure StatBlock where
  total_annual_profit : ℚ
  total_sold_qty : ℤ
  avg_profit_per_unit : ℚ
  avg_gross_margin : ℚ
  total_products : ℕ
deriving Repr, DecidableEq

/-- the changes block of overall statistics. -/
structure ChangeStats where
  total_annual_profit_change : ℚ
  total_annual_profit_change_percent : ℚ
  total_sold_qty_change : ℤ
  total_sold_qty_change_percent : ℚ
  avg_profit_per_unit_change : ℚ
  avg_profit_per_unit_change_percent : ℚ
  avg_gross_margin_change : ℚ
  avg_gross_margin_change_percent : ℚ
  total_products_change : ℤ
deriving Repr, DecidableEq

/-- the zero initialisation of overallStats.previous. -/
def zeroStat : StatBlock :=
  { total_annual_profit := 0, total_sold_qty := 0, avg_profit_per_unit := 0
    avg_gross_margin := 0, total_products := 0 }

/-- the zero initialisation of overallStats.changes. -/
def zeroChanges : ChangeStats :=
  { total_annual_profit_change := 0, total_annual_profit_change_percent := 0
    total_sold_qty_change := 0, total_sold_qty_change_percent := 0
    avg_profit_per_unit_change := 0, avg_profit_per_unit_change_percent := 0
    avg_gross_margin_change := 0, avg_gross_margin_change_percent := 0
    total_products_change := 0 }

/-- the overallStats.current block, identical in both code paths: sums of the
coalesced product fields, with length-guarded means. -/
def currentStats (ps : List Product) : StatBlock :=
  { total_annual_profit := (ps.map (fun p => p.annual_profit)).sum
    total_sold_qty := (ps.map (fun p => p.sold_qty)).sum
    avg_profit_per_unit :=
      if 0 < ps.length then (ps.map (fun p => p.avg_profit_per_unit)).sum / (ps.length : ℚ)
      else 0
    avg_gross_margin :=
      if 0 < ps.length then (ps.map (fun p => p.avg_gross_margin)).sum / (ps.length : ℚ)
      else 0
    total_products := ps.length }

/-- the previous_week objects of the products that have one: the
productsWithPreviousData array of the route, projected to its snapshot
side. -/
def prevList (ps : List Product) : List PrevWeek :=
  ps.filterMap (fun p => p.previous_week)

/-- the overallStats.previous block of the comparison path: computed from the
products that have a previous_week object, and left at its zero
initialisation when there are none. -/
def prevStats (ps : List Product) : StatBlock :=
  let prevs := prevList ps
  if 0 < prevs.length then
    { total_annual_profit := (prevs.map (fun w => w.annual_profit)).sum
      total_sold_qty := (prevs.map (fun w => w.sold_qty)).sum
      avg_profit_per_unit := (prevs.map (fun w => w.avg_profit_per_unit)).sum / (prevs.length : ℚ)
      avg_gross_margin := 0
      total_products := prevs.length }
  else zeroStat

/-- the overallStats.changes block of the comparison path: computed from the
current and previous blocks when at least one product has comparison data,
and left at its zero initialisation otherwise.  Every percent is guarded by a
non-zero previous value and coalesced to 0 otherwise. -/
def changeStats (cur prev : StatBlock) (hasPrev : Bool) : ChangeStats :=
  if hasPrev then
    { total_annual_profit_change := cur.total_annual_profit - prev.total_annual_profit
      total_annual_profit_change_percent :=
        if prev.total_annual_profit ≠ 0 then
          (cur.total_annual_profit - prev.total_annual_profit) / prev.total_annual_profit * 100
        else 0
      total_sold_qty_change := cur.total_sold_qty - prev.total_sold_qty
      total_sold_qty_change_percent :=
        if prev.total_sold_qty ≠ 0 then
          ((cur.total_sold_qty : ℚ) - (prev.total_sold_qty : ℚ)) / (prev.total_sold_qty : ℚ) * 100
        else 0
      avg_profit_per_unit_change := cur.avg_profit_per_unit - prev.avg_profit_per_unit
      avg_profit_per_unit_change_percent :=
        if prev.avg_profit_per_unit ≠ 0 then
          (cur.avg_profit_per_unit - prev.avg_profit_per_unit) / prev.avg_profit_per_unit * 100
        else 0
      avg_gross_margin_change := 0
      avg_gross_margin_change_percent := 0
      total_products_change := (cur.total_products : ℤ) - (prev.total_products : ℤ) }
  else zeroChanges

/-- the comparison_info object of the response. -/
structure ComparisonInfo where
  current_week : String
  comparison_week : Option String
  comparison_period : String
  comparison_label : String
  products_with_comparison : ℕ
  products_without_comparison : ℕ
  total_products : ℕ
deriving Repr, DecidableEq

/-- the overall_stats object; on the current-only path the previous block is
absent and changes is null, both modelled as `none`. -/
structure OverallStats where
  current : StatBlock
  previous : Option StatBlock
  changes : Option ChangeStats
deriving Repr, DecidableEq

/-- a response of the route: either the catch-handler error payload or a
success payload. -/
inductive Response where
  | error (return_code : String) (message : String)
  | success (products : List Product) (comparison_info : ComparisonInfo)
      (overall_stats : OverallStats)
deriving Repr, DecidableEq

/-- the POST /get_products_comparison route.  An empty snapshot store makes
the route throw, which its catch handler turns into the DATABASE_ERROR
payload; otherwise the resolved comparison week selects between the
current-only fallback response and the full comparison response. -/
def get_products_comparison (db : DB) (req : Request) : Response :=
  let comparisonPeriod := jsOrElse req.comparison_period "week"
  match sqlMax (shpWeeks db) with
  | none => Response.error "DATABASE_ERROR" "Failed to retrieve products comparison from database"
  | some actualCurrentWeek =>
    let r := resolveComparison db comparisonPeriod actualCurrentWeek
    match r.comparisonWeek with
    | none =>
      let products :=
        (currentRows db req.season_filter req.season_filter_exclude req.brand_filter).map
          mkCurrentOnlyProduct
      Response.success products
        { current_week := actualCurrentWeek
          comparison_week := none
          comparison_period := comparisonPeriod
          comparison_label := r.comparisonLabel
          products_with_comparison := 0
          products_without_comparison := products.length
          total_products := products.length }
        { current := currentStats products, previous := none, changes := none }
    | some cw =>
      let joined :=
        (currentRows db req.season_filter req.season_filter_exclude req.brand_filter).flatMap
          (joinPrev db cw)
      let products := joined.map (fun j => mkComparisonProduct j.1 j.2)
      let withComp := (products.filter (fun p => p.previous_week.isSome)).length
      Response.success products
        { current_week := actualCurrentWeek
          comparison_week := some cw
          comparison_period := comparisonPeriod
          comparison_label := r.comparisonLabel
          products_with_comparison := withComp
          products_without_comparison := products.length - withComp
          total_products := products.length }
        { current := currentStats products
          previous := some (prevStats products)
          changes := some (changeStats (currentStats products) (prevStats products)
            (0 < (prevList products).length)) }

/-- ASCII lower-casing, modelling the JavaScript toLowerCase calls of
get_brands (all compared brand names are ASCII). -/
def strToLower (s : String) : String := String.mk (s.toList.map Char.toLower)

/-- the POST /get_brands route: distinct non-null, non-empty brands of SHP
products; the allow-listed brands present case-insensitively among them; the
option list is All, the available allow-listed brands, and UKD when some
listed brand falls outside the allow-list.  The DISTINCT plus ORDER BY of the
query is modelled by dedup alone, since no verified property depends on the
order of the option list. -/
def get_brands (db : DB) : List String :=
  let allBrands :=
    ((db.gp.filter (fun g =>
        decide (g.channel = "SHP") && decide (g.brand ≠ none) && decide (g.brand ≠ some ""))).filterMap
      (fun g => g.brand)).dedup
  let availableSpecificBrands :=
    brandAllowList.filter (fun b => allBrands.any (fun d => strToLower d = strToLower b))
  let hasUKDBrands :=
    allBrands.any (fun d => ! brandAllowList.any (fun b => strToLower b = strToLower d))
  ("All" :: availableSpecificBrands) ++ (if hasUKDBrands then ["UKD"] else [])

/-- existence of a snapshot row for a given product identity at a given
period key. -/
def snapshotExistsAt (db : DB) (gid ch yw : String) : Prop :=
  ∃ w ∈ db.gpw, w.groupid = gid ∧ w.channel = ch ∧ w.year_week = yw

/-- a sample store: product A has a snapshot at the comparison week with a
zero previous annual_profit and sold_qty, product B has none. -/
def gA : GPRow := ⟨"A", "SHP", some 10, some 4, some 5, some "Nike", some 1⟩

/-- a sample product without a snapshot at the comparison week. -/
def gB : GPRow := ⟨"B", "SHP", some 20, some 2, some 3, none, some 1⟩

/-- the snapshot row that fixes the current week of the sample store. -/
def wA27 : WeekRow := ⟨"A", "SHP", 7, 1, 6, "2025-W27"⟩

/-- the snapshot row of product A at the comparison week, with zero
annual_profit and sold_qty. -/
def wA26 : WeekRow := ⟨"A", "SHP", 0, 0, 2, "2025-W26"⟩

/-- a store with two weeks of data and one matched product. -/
def dbW : DB := ⟨[gA, gB], [wA27, wA26], []⟩

/-- an empty request body. -/
def reqW : Request := ⟨none, none, none, none⟩

/-- a store holding a single week of data. -/
def dbOne : DB := ⟨[gA], [wA27], []⟩

/-- a request with an unrecognized comparison_period string. -/
def reqF : Request := ⟨some "fortnight", none, none, none⟩

/-- a store whose snapshot table is empty. -/
def dbEmptyW : DB := ⟨[gA], [], []⟩

/-- a store whose only product has a NULL brand. -/
def dbNullBrand : DB := ⟨[⟨"N", "SHP", some 1, some 1, some 1, none, some 1⟩], [], []⟩

/-- a store with a lower-case allow-listed brand, an off-list brand and an
empty brand. -/
def dbBrands : DB :=
  ⟨[⟨"R", "SHP", some 1, some 1, some 1, some "rieker", some 1⟩,
    ⟨"N", "SHP", some 1, some 1, some 1, some "Nike", some 1⟩,
    ⟨"E", "SHP", some 1, some 1, some 1, some "", some 1⟩], [], []⟩

/-- a store whose snapshot table spans weeks 2025-W10 through 2025-W27. -/
def dbMonth : DB :=
  ⟨[gA], [⟨"A", "SHP", 1, 1, 1, "2025-W10"⟩, wA27], []⟩

/-- the expected response row of product A in the sample comparison
response. -/
def pA : Product :=
  ⟨"A", "SHP", 10, 4, 5, 1, some ⟨0, 0, 2, "2025-W26"⟩, some ⟨10, 0, 4, 0, 3, 150⟩⟩

/-- the expected response row of product B in the sample comparison
response. -/
def pB : Product := ⟨"B", "SHP", 20, 2, 3, 1, none, none⟩

/-- the expected product rows of the sample comparison response. -/
def psW : List Product := [pA, pB]

/-- the expected comparison_info of the sample comparison response. -/
def infoW : ComparisonInfo := ⟨"2025-W27", some "2025-W26", "week", "Previous Week", 1, 1, 2⟩

/-- the expected overall_stats of the sample comparison response. -/
def statsW : OverallStats :=
  ⟨⟨30, 6, 4, 1, 2⟩, some ⟨0, 0, 2, 0, 1⟩, some ⟨30, 0, 6, 0, 2, 100, 0, 0, 1⟩⟩

/-- evaluation of the route on the sample store. -/
theorem evalW : get_products_comparison dbW reqW = Response.success psW infoW statsW := by
  have h1 : sqlMax (shpWeeks dbW) = some "2025-W27" := by decide
  have h2 : resolveComparison dbW "week" "2025-W27" = ⟨some "2025-W26", "Previous Week"⟩ := by
    decide
  have h3 : currentRows dbW none none none = [gA, gB] := by decide
  have h4 : joinPrev dbW "2025-W26" gA = [(gA, some wA26)] := by decide
  have h5 : joinPrev dbW "2025-W26" gB = [(gB, none)] := by decide
  simp only [get_products_comparison, reqW, jsOrElse, h1, h2, h3, h4, h5,
    List.flatMap_cons, List.flatMap_nil, List.append_nil, List.map_cons, List.map_nil,
    List.map_append]
  norm_num [mkComparisonProduct, annualProfitChange, annualProfitChangePercent, soldQtyChange,
    soldQtyChangePercent, avgProfitPerUnitChange, avgProfitPerUnitChangePercent, round2, gA, gB,
    wA26, psW, pA, pB, infoW, statsW, currentStats, prevStats, prevList, changeStats, zeroStat,
    zeroChanges, List.filter, List.filterMap]

/-- a nonempty key list has a maximum. -/
theorem sqlMax_of_ne_nil {l : List String} (h : l ≠ []) : ∃ m, sqlMax l = some m := by
  cases l with
  | nil => exact absurd rfl h
  | cons x xs => exact ⟨_, rfl⟩

/-- the lexicographic order is irreflexive. -/
theorem charListLt_irrefl (l : List Char) : charListLt l l = false := by
  induction l with
  | nil => rfl
  | cons a as ih => simp [charListLt, ih]

/-- the strict order on strings is irreflexive. -/
theorem strLt_irrefl (s : String) : strLt s s = false := charListLt_irrefl s.toList

/-- mapping over the matched-snapshot projection agrees with mapping the
coalesced projection over the products filtered to those with a
previous_week object. -/
theorem prevList_map {α : Type} (f : PrevWeek → α) (d : α) (l : List Product) :
    (prevList l).map f =
      (l.filter (fun p => p.previous_week.isSome)).map
        (fun p => (p.previous_week.map f).getD d) := by
  induction l with
  | nil => rfl
  | cons p t ih =>
    cases hp : p.previous_week <;>
      simp [prevList, List.filterMap_cons, List.filter_cons, hp, ← ih, prevList]

/-- the matched-snapshot list is as long as the filter of products with a
previous_week object. -/
theorem prevList_length (l : List Product) :
    (prevList l).length = (l.filter (fun p => p.previous_week.isSome)).length := by
  induction l with
  | nil => rfl
  | cons p t ih =>
    cases hp : p.previous_week <;>
      simp [prevList, List.filterMap_cons, List.filter_cons, hp, ← ih, prevList]

/-- products split into those with and those without a previous_week
object. -/
theorem filter_none_add_filter_isSome (l : List Product) :
    (l.filter (fun p => p.previous_week = none)).length
      + (l.filter (fun p => p.previous_week.isSome)).length = l.length := by
  induction l with
  | nil => rfl
  | cons p t ih =>
    cases hp : p.previous_week <;> simp [List.filter_cons, hp] <;> omega

/-- membership in the filtered current-product rows implies membership in the
store at channel SHP. -/
theorem mem_currentRows {db : DB} {sf sfe bf : Option String} {g : GPRow}
    (h : g ∈ currentRows db sf sfe bf) : g ∈ db.gp ∧ g.channel = "SHP" := by
  unfold currentRows at h
  by_cases hj : (truthyStr sf || truthyStr sfe) = true
  · rw [if_pos hj] at h
    obtain ⟨a, ha, hg⟩ := List.mem_flatMap.mp h
    obtain ⟨_, _, rfl⟩ := List.mem_map.mp hg
    have := List.mem_filter.mp ha
    refine ⟨this.1, ?_⟩
    have hc := (Bool.and_eq_true _ _ |>.mp this.2).1
    simpa using hc
  · rw [if_neg hj] at h
    have := List.mem_filter.mp h
    refine ⟨this.1, ?_⟩
    have hc := (Bool.and_eq_true _ _ |>.mp this.2).1
    simpa using hc

/-- every joined pair keeps its current row, and carries a snapshot side
exactly when a matching snapshot row exists at the comparison week. -/
theorem mem_joinPrev {db : DB} {cw : String} {g : GPRow} {j : GPRow × Option WeekRow}
    (hj : j ∈ joinPrev db cw g) :
    j.1 = g ∧
      (j.2.isSome = true ↔ ∃ w ∈ db.gpw,
        w.channel = "SHP" ∧ w.year_week = cw ∧ w.groupid = g.groupid
          ∧ w.channel = g.channel) := by
  unfold joinPrev at hj
  have hmem : ∀ w : WeekRow,
      (w ∈ (snapshotRowsAt db cw).filter
        (fun w => decide (w.groupid = g.groupid) && decide (w.channel = g.channel))) ↔
      (w ∈ db.gpw ∧ w.channel = "SHP" ∧ w.year_week = cw ∧ w.groupid = g.groupid
        ∧ w.channel = g.channel) := by
    intro w
    simp only [snapshotRowsAt, List.mem_filter, Bool.and_eq_true, decide_eq_true_eq]
    tauto
  by_cases he : ((snapshotRowsAt db cw).filter
      (fun w => decide (w.groupid = g.groupid) && decide (w.channel = g.channel))).isEmpty
  · rw [if_pos he] at hj
    simp only [List.mem_singleton] at hj
    subst hj
    refine ⟨rfl, ?_⟩
    simp only [Option.isSome_none, Bool.false_eq_true, false_iff]
    rintro ⟨w, hw, h1, h2, h3, h4⟩
    have hwmem := (hmem w).mpr ⟨hw, h1, h2, h3, h4⟩
    rw [List.isEmpty_iff] at he
    simp [he] at hwmem
  · rw [if_neg he] at hj
    obtain ⟨w, hw, rfl⟩ := List.mem_map.mp hj
    refine ⟨rfl, ?_⟩
    simp only [Option.isSome_some, true_iff]
    obtain ⟨hw1, hw2, hw3, hw4, hw5⟩ := (hmem w).mp hw
    exact ⟨w, hw1, hw2, hw3, hw4, hw5⟩

/-- inversion of a successful response: either the current-only fallback path
was taken (no comparison week), or the full comparison path was (a comparison
week was resolved), and in each case the payload components are the ones the
route computes. -/
theorem route_success_inv {db : DB} {req : Request} {ps : List Product}
    {info : ComparisonInfo} {stats : OverallStats}
    (h : get_products_comparison db req = Response.success ps info stats) :
    ∃ acw, sqlMax (shpWeeks db) = some acw ∧
      (((resolveComparison db (jsOrElse req.comparison_period "week") acw).comparisonWeek = none ∧
        ps = (currentRows db req.season_filter req.season_filter_exclude req.brand_filter).map
          mkCurrentOnlyProduct ∧
        info = ⟨acw, none, jsOrElse req.comparison_period "week",
          (resolveComparison db (jsOrElse req.comparison_period "week") acw).comparisonLabel,
          0, ps.length, ps.length⟩ ∧
        stats = ⟨currentStats ps, none, none⟩)
      ∨ (∃ cw,
        (resolveComparison db (jsOrElse req.comparison_period "week") acw).comparisonWeek
          = some cw ∧
        ps = ((currentRows db req.season_filter req.season_filter_exclude
          req.brand_filter).flatMap (joinPrev db cw)).map (fun j => mkComparisonProduct j.1 j.2) ∧
        info = ⟨acw, some cw, jsOrElse req.comparison_period "week",
          (resolveComparison db (jsOrElse req.comparison_period "week") acw).comparisonLabel,
          (ps.filter (fun p => p.previous_week.isSome)).length,
          ps.length - (ps.filter (fun p => p.previous_week.isSome)).length, ps.length⟩ ∧
        stats = ⟨currentStats ps, some (prevStats ps),
          some (changeStats (currentStats ps) (prevStats ps)
            (0 < (prevList ps).length))⟩)) := by
  unfold get_products_comparison at h
  cases hmax : sqlMax (shpWeeks db) with
  | none => rw [hmax] at h; exact absurd h (by simp)
  | some acw =>
    rw [hmax] at h
    simp only [] at h
    refine ⟨acw, rfl, ?_⟩
    cases hcw : (resolveComparison db (jsOrElse req.comparison_period "week") acw).comparisonWeek
      with
    | none =>
      rw [hcw] at h
      simp only [Response.success.injEq] at h
      obtain ⟨hps, hinfo, hstats⟩ := h
      exact Or.inl ⟨rfl, hps.symm, by rw [← hinfo, hps], by rw [← hstats, hps]⟩
    | some cw =>
      rw [hcw] at h
      simp only [Response.success.injEq] at h
      obtain ⟨hps, hinfo, hstats⟩ := h
      exact Or.inr ⟨cw, rfl, hps.symm, by rw [← hinfo, hps], by rw [← hstats, hps]⟩

/-- C1: in a comparison response for which a comparison period was resolved,
a product row carries a previous_week object exactly when a snapshot row
exists for its (groupid, channel) at the resolved comparison week; and a row
whose previous_week is null also has a null changes object. -/
theorem previousWeek_iff_snapshot_exists (db : DB) (req : Request)
    (ps : List Product) (info : ComparisonInfo) (stats : OverallStats) (cw : String)
    (p : Product)
    (h : get_products_comparison db req = Response.success ps info stats)
    (hcw : info.comparison_week = some cw)
    (hp : p ∈ ps) :
    (p.previous_week.isSome = true ↔ snapshotExistsAt db p.groupid p.channel cw)
    ∧ (p.previous_week = none → p.changes = none) := by
  obtain ⟨acw, hmax, hbranch⟩ := route_success_inv h
  rcases hbranch with ⟨hres, hps, hinfo, hstats⟩ | ⟨cw', hres, hps, hinfo, hstats⟩
  · rw [hinfo] at hcw
    simp at hcw
  · rw [hinfo] at hcw
    simp only [Option.some.injEq] at hcw
    subst hcw
    subst hps
    obtain ⟨j, hj, rfl⟩ := List.mem_map.mp hp
    obtain ⟨g, hg, hjj⟩ := List.mem_flatMap.mp hj
    have hgc := (mem_currentRows hg).2
    obtain ⟨hj1, hiff⟩ := mem_joinPrev hjj
    constructor
    · have hprev : (mkComparisonProduct j.1 j.2).previous_week.isSome = j.2.isSome := by
        cases j.2 <;> simp [mkComparisonProduct]
      have hgid : (mkComparisonProduct j.1 j.2).groupid = g.groupid := by
        rw [show (mkComparisonProduct j.1 j.2).groupid = j.1.groupid from rfl, hj1]
      have hch : (mkComparisonProduct j.1 j.2).channel = g.channel := by
        rw [show (mkComparisonProduct j.1 j.2).channel = j.1.channel from rfl, hj1]
      rw [hprev, hiff, hgid, hch]
      unfold snapshotExistsAt
      constructor
      · rintro ⟨w, hw, h1, h2, h3, h4⟩
        exact ⟨w, hw, h3, h4, h2⟩
      · rintro ⟨w, hw, h1, h2, h3⟩
        exact ⟨w, hw, by rw [h2, hgc], h3, h1, h2⟩
    · intro hnone
      cases hj2 : j.2 with
      | some w => simp [mkComparisonProduct, hj2] at hnone
      | none =>
        cases hga : j.1.annual_profit <;>
          simp [mkComparisonProduct, hj2, annualProfitChange, hga]

/-- concrete instance of C1 on the sample store. -/
theorem previousWeek_iff_snapshot_exists_witness :
    (pA.previous_week.isSome = true ↔ snapshotExistsAt dbW pA.groupid pA.channel "2025-W26")
    ∧ (pA.previous_week = none → pA.changes = none) :=
  previousWeek_iff_snapshot_exists dbW reqW psW infoW statsW "2025-W26" pA evalW
    (by decide) (by decide)

/-- C8: in every successful response, products_with_comparison counts the
rows with a previous_week object, products_without_comparison counts the rows
without one, and the two add up to total_products, which is the number of
returned rows. -/
theorem coverage_counter_consistency (db : DB) (req : Request)
    (ps : List Product) (info : ComparisonInfo) (stats : OverallStats)
    (h : get_products_comparison db req = Response.success ps info stats) :
    info.products_with_comparison = (ps.filter (fun p => p.previous_week.isSome)).length ∧
    info.products_without_comparison = (ps.filter (fun p => p.previous_week = none)).length ∧
    info.products_with_comparison + info.products_without_comparison = info.total_products ∧
    info.total_products = ps.length := by
  obtain ⟨acw, hmax, hbranch⟩ := route_success_inv h
  rcases hbranch with ⟨hres, hps, hinfo, hstats⟩ | ⟨cw, hres, hps, hinfo, hstats⟩
  · have hall : (ps.filter (fun p => p.previous_week.isSome)) = []
        ∧ (ps.filter (fun p => p.previous_week = none)) = ps := by
      subst hps
      constructor
      · rw [List.filter_eq_nil_iff]
        rintro p hp
        obtain ⟨g, hg, rfl⟩ := List.mem_map.mp hp
        simp [mkCurrentOnlyProduct]
      · rw [List.filter_eq_self]
        rintro p hp
        obtain ⟨g, hg, rfl⟩ := List.mem_map.mp hp
        simp [mkCurrentOnlyProduct]
    rw [hinfo]
    dsimp only
    simp [hall.1, hall.2]
  · rw [hinfo]
    have hsum := filter_none_add_filter_isSome ps
    dsimp only
    omega

/-- concrete instance of C8 on the sample store. -/
theorem coverage_counter_consistency_witness :
    infoW.products_with_comparison = (psW.filter (fun p => p.previous_week.isSome)).length ∧
    infoW.products_without_comparison = (psW.filter (fun p => p.previous_week = none)).length ∧
    infoW.products_with_comparison + infoW.products_without_comparison = infoW.total_products ∧
    infoW.total_products = psW.length :=
  coverage_counter_consistency dbW reqW psW infoW statsW evalW

/-- C3: the previous block of overall_stats is computed only over the subset
of returned products that carry a previous_week object: its totals are sums
over that subset alone, and its total_products is the size of that subset. -/
theorem overall_previous_from_matched_subset (db : DB) (req : Request)
    (ps : List Product) (info : ComparisonInfo) (stats : OverallStats) (prev : StatBlock)
    (h : get_products_comparison db req = Response.success ps info stats)
    (hprev : stats.previous = some prev) :
    prev.total_products = (ps.filter (fun p => p.previous_week.isSome)).length ∧
    prev.total_annual_profit = ((ps.filter (fun p => p.previous_week.isSome)).map
      (fun p => (p.previous_week.map (fun w => w.annual_profit)).getD 0)).sum ∧
    prev.total_sold_qty = ((ps.filter (fun p => p.previous_week.isSome)).map
      (fun p => (p.previous_week.map (fun w => w.sold_qty)).getD 0)).sum ∧
    prev.avg_profit_per_unit =
      (if 0 < (ps.filter (fun p => p.previous_week.isSome)).length then
        ((ps.filter (fun p => p.previous_week.isSome)).map
          (fun p => (p.previous_week.map (fun w => w.avg_profit_per_unit)).getD 0)).sum
          / ((ps.filter (fun p => p.previous_week.isSome)).length : ℚ)
       else 0) := by
  obtain ⟨acw, hmax, hbranch⟩ := route_success_inv h
  rcases hbranch with ⟨hres, hps, hinfo, hstats⟩ | ⟨cw, hres, hps, hinfo, hstats⟩
  · rw [hstats] at hprev
    simp at hprev
  · rw [hstats] at hprev
    simp only [Option.some.injEq] at hprev
    subst hprev
    unfold prevStats
    have hlen := prevList_length ps
    by_cases h0 : 0 < (prevList ps).length
    · rw [if_pos h0]
      refine ⟨by rw [hlen], ?_, ?_, ?_⟩
      · rw [prevList_map (fun w => w.annual_profit) 0 ps]
      · rw [prevList_map (fun w => w.sold_qty) 0 ps]
      · rw [if_pos (hlen ▸ h0), prevList_map (fun w => w.avg_profit_per_unit) 0 ps, hlen]
    · rw [if_neg h0]
      have hz : (prevList ps).length = 0 := Nat.eq_zero_of_not_pos h0
      have hfz : (ps.filter (fun p => p.previous_week.isSome)).length = 0 := by omega
      have hfe : (ps.filter (fun p => p.previous_week.isSome)) = [] :=
        List.length_eq_zero.mp hfz
      simp [zeroStat, hfe]

/-- concrete instance of C3 on the sample store. -/
theorem overall_previous_from_matched_subset_witness :
    (⟨0, 0, 2, 0, 1⟩ : StatBlock).total_products
        = (psW.filter (fun p => p.previous_week.isSome)).length ∧
    (⟨0, 0, 2, 0, 1⟩ : StatBlock).total_annual_profit
        = ((psW.filter (fun p => p.previous_week.isSome)).map
          (fun p => (p.previous_week.map (fun w => w.annual_profit)).getD 0)).sum ∧
    (⟨0, 0, 2, 0, 1⟩ : StatBlock).total_sold_qty
        = ((psW.filter (fun p => p.previous_week.isSome)).map
          (fun p => (p.previous_week.map (fun w => w.sold_qty)).getD 0)).sum ∧
    (⟨0, 0, 2, 0, 1⟩ : StatBlock).avg_profit_per_unit =
      (if 0 < (psW.filter (fun p => p.previous_week.isSome)).length then
        ((psW.filter (fun p => p.previous_week.isSome)).map
          (fun p => (p.previous_week.map (fun w => w.avg_profit_per_unit)).getD 0)).sum
          / ((psW.filter (fun p => p.previous_week.isSome)).length : ℚ)
       else 0) :=
  overall_previous_from_matched_subset dbW reqW psW infoW statsW ⟨0, 0, 2, 0, 1⟩ evalW rfl

/-- C2 counterexample: on the sample store the previous annual_profit and
sold_qty are exactly zero, yet the response carries the per-product percent
fields with value 0 (not absent), and the aggregate percent is likewise 0
while the previous total is zero. -/
theorem percent_zero_prev_emits_zero_cex :
    ∃ ps info stats, get_products_comparison dbW reqW = Response.success ps info stats ∧
      (∃ p ∈ ps, ∃ w c, p.previous_week = some w ∧ p.changes = some c ∧
        w.annual_profit = 0 ∧ c.annual_profit_change_percent = 0 ∧
        w.sold_qty = 0 ∧ c.sold_qty_change_percent = 0) ∧
      (∃ prev ch, stats.previous = some prev ∧ stats.changes = some ch ∧
        prev.total_annual_profit = 0 ∧ ch.total_annual_profit_change_percent = 0) :=
  ⟨psW, infoW, statsW, evalW,
    ⟨pA, by decide, ⟨0, 0, 2, "2025-W26"⟩, ⟨10, 0, 4, 0, 3, 150⟩,
      by decide, by decide, by decide, by decide, by decide, by decide⟩,
    ⟨⟨0, 0, 2, 0, 1⟩, ⟨30, 0, 6, 0, 2, 100, 0, 0, 1⟩,
      by decide, by decide, by decide, by decide⟩⟩

/-- C2 as amended: whenever a previous value is exactly zero, the emitted
percent-change field (per-product and aggregate) is the number 0 — the SQL
NULL or guarded branch is coalesced to 0, never to an infinity. -/
theorem percent_on_zero_previous_is_zero (db : DB) (req : Request)
    (ps : List Product) (info : ComparisonInfo) (stats : OverallStats)
    (h : get_products_comparison db req = Response.success ps info stats) :
    (∀ p ∈ ps, ∀ w c, p.previous_week = some w → p.changes = some c →
      (w.annual_profit = 0 → c.annual_profit_change_percent = 0) ∧
      (w.sold_qty = 0 → c.sold_qty_change_percent = 0) ∧
      (w.avg_profit_per_unit = 0 → c.avg_profit_per_unit_change_percent = 0)) ∧
    (∀ prev ch, stats.previous = some prev → stats.changes = some ch →
      (prev.total_annual_profit = 0 → ch.total_annual_profit_change_percent = 0) ∧
      (prev.total_sold_qty = 0 → ch.total_sold_qty_change_percent = 0) ∧
      (prev.avg_profit_per_unit = 0 → ch.avg_profit_per_unit_change_percent = 0)) := by
  obtain ⟨acw, hmax, hbranch⟩ := route_success_inv h
  rcases hbranch with ⟨hres, hps, hinfo, hstats⟩ | ⟨cw, hres, hps, hinfo, hstats⟩
  · constructor
    · intro p hp w c hw hc
      subst hps
      obtain ⟨g, hg, rfl⟩ := List.mem_map.mp hp
      simp [mkCurrentOnlyProduct] at hw
    · intro prev ch hprev hch
      rw [hstats] at hch
      simp at hch
  · constructor
    · intro p hp w c hw hc
      subst hps
      obtain ⟨j, hj, rfl⟩ := List.mem_map.mp hp
      cases hj2 : j.2 with
      | none =>
        rw [hj2] at hw
        simp [mkComparisonProduct] at hw
      | some w0 =>
        rw [hj2] at hw hc
        cases hga : j.1.annual_profit with
        | none =>
          rw [show (mkComparisonProduct j.1 (some w0)).changes
              = (match annualProfitChange j.1 (some w0) with
                 | some c => some
                   { annual_profit_change := c
                     annual_profit_change_percent :=
                       (annualProfitChangePercent j.1 (some w0)).getD 0
                     sold_qty_change := (soldQtyChange j.1 (some w0)).getD 0
                     sold_qty_change_percent := (soldQtyChangePercent j.1 (some w0)).getD 0
                     avg_profit_per_unit_change :=
                       (avgProfitPerUnitChange j.1 (some w0)).getD 0
                     avg_profit_per_unit_change_percent :=
                       (avgProfitPerUnitChangePercent j.1 (some w0)).getD 0 }
                 | none => none) from rfl] at hc
          simp [annualProfitChange, hga] at hc
        | some a =>
          have hwfields : w = ⟨w0.annual_profit, w0.sold_qty, w0.avg_profit_per_unit,
              w0.year_week⟩ := by
            have : (mkComparisonProduct j.1 (some w0)).previous_week
                = some ⟨w0.annual_profit, w0.sold_qty, w0.avg_profit_per_unit,
                    w0.year_week⟩ := rfl
            rw [this] at hw
            exact (Option.some.injEq _ _ ▸ hw).symm
          have hcfields : c = ⟨a - w0.annual_profit,
              (annualProfitChangePercent j.1 (some w0)).getD 0,
              (soldQtyChange j.1 (some w0)).getD 0,
              (soldQtyChangePercent j.1 (some w0)).getD 0,
              (avgProfitPerUnitChange j.1 (some w0)).getD 0,
              (avgProfitPerUnitChangePercent j.1 (some w0)).getD 0⟩ := by
            have : (mkComparisonProduct j.1 (some w0)).changes
                = some ⟨a - w0.annual_profit,
                    (annualProfitChangePercent j.1 (some w0)).getD 0,
                    (soldQtyChange j.1 (some w0)).getD 0,
                    (soldQtyChangePercent j.1 (some w0)).getD 0,
                    (avgProfitPerUnitChange j.1 (some w0)).getD 0,
                    (avgProfitPerUnitChangePercent j.1 (some w0)).getD 0⟩ := by
              simp [mkComparisonProduct, annualProfitChange, hga]
            rw [this] at hc
            exact (Option.some.injEq _ _ ▸ hc).symm
          subst hwfields
          subst hcfields
          refine ⟨?_, ?_, ?_⟩
          · intro h0
            simp only at h0
            simp [annualProfitChangePercent, hga, h0]
          · intro h0
            simp only at h0
            cases hgs : j.1.sold_qty <;> simp [soldQtyChangePercent, hgs, h0]
          · intro h0
            simp only at h0
            cases hgu : j.1.avg_profit_per_unit <;>
              simp [avgProfitPerUnitChangePercent, hgu, h0]
    · intro prev ch hprev hch
      rw [hstats] at hprev hch
      simp only [Option.some.injEq] at hprev hch
      subst hprev
      subst hch
      unfold changeStats
      by_cases hb : (0 < (prevList ps).length)
      · simp only [hb, decide_eq_true_eq, if_true]
        refine ⟨fun h0 => ?_, fun h0 => ?_, fun h0 => ?_⟩ <;> simp [h0]
      · simp only [hb, decide_eq_true_eq, if_false]
        exact ⟨fun _ => rfl, fun _ => rfl, fun _ => rfl⟩

/-- concrete instance of the amended C2 on the sample store. -/
theorem percent_on_zero_previous_is_zero_witness :
    (∀ p ∈ psW, ∀ w c, p.previous_week = some w → p.changes = some c →
      (w.annual_profit = 0 → c.annual_profit_change_percent = 0) ∧
      (w.sold_qty = 0 → c.sold_qty_change_percent = 0) ∧
      (w.avg_profit_per_unit = 0 → c.avg_profit_per_unit_change_percent = 0)) ∧
    (∀ prev ch, statsW.previous = some prev → statsW.changes = some ch →
      (prev.total_annual_profit = 0 → ch.total_annual_profit_change_percent = 0) ∧
      (prev.total_sold_qty = 0 → ch.total_sold_qty_change_percent = 0) ∧
      (prev.avg_profit_per_unit = 0 → ch.avg_profit_per_unit_change_percent = 0)) :=
  percent_on_zero_previous_is_zero dbW reqW psW infoW statsW evalW

/-- whenever the first resolution stage yields no comparison week, it yields
the explanatory label. -/
theorem resolveBase_none_label {db : DB} {cp acw : String}
    (h : (resolveBase db cp acw).comparisonWeek = none) :
    (resolveBase db cp acw).comparisonLabel = "No comparison data available" := by
  unfold resolveBase at h ⊢
  dsimp only at h ⊢
  by_cases hm : cp = "month"
  · rw [if_pos hm] at h ⊢
    cases hmin : sqlMin (shpWeeks db) with
    | none => rfl
    | some e =>
      rw [hmin] at h
      dsimp only at h ⊢
      by_cases he : e ≠ acw
      · rw [if_pos he] at h
        simp at h
      · rw [if_neg he]
  · rw [if_neg hm] at h
    simp at h

/-- whenever period resolution yields no comparison week, it yields the
explanatory label. -/
theorem resolve_none_label {db : DB} {cp acw : String}
    (h : (resolveComparison db cp acw).comparisonWeek = none) :
    (resolveComparison db cp acw).comparisonLabel = "No comparison data available" := by
  unfold resolveComparison applyWeekCheck at h ⊢
  cases hb : (resolveBase db cp acw).comparisonWeek with
  | none =>
    dsimp only at h ⊢
    exact resolveBase_none_label hb
  | some cw =>
    rw [hb] at h
    dsimp only at h ⊢
    by_cases hw : cp = "week"
    · rw [if_pos hw] at h ⊢
      by_cases hd : 0 < (snapshotRowsAt db cw).length
      · rw [if_pos hd] at h
        rw [hb] at h
        simp at h
      · rw [if_neg hd]
    · rw [if_neg hw] at h
      rw [hb] at h
      simp at h

/-- the expected sole product row of the degraded responses on the
single-week store. -/
def pD : Product := ⟨"A", "SHP", 10, 4, 5, 1, none, none⟩

/-- the expected comparison_info of the degraded response. -/
def infoD : ComparisonInfo :=
  ⟨"2025-W27", none, "week", "No comparison data available", 0, 1, 1⟩

/-- the expected overall_stats of the degraded response. -/
def statsD : OverallStats := ⟨⟨10, 4, 5, 1, 1⟩, none, none⟩

/-- evaluation of the route on the single-week store: the week comparison
degrades to a current-only response. -/
theorem evalOne : get_products_comparison dbOne reqW = Response.success [pD] infoD statsD := by
  have h1 : sqlMax (shpWeeks dbOne) = some "2025-W27" := by decide
  have h2 : resolveComparison dbOne "week" "2025-W27"
      = ⟨none, "No comparison data available"⟩ := by decide
  have h3 : currentRows dbOne none none none = [gA] := by decide
  simp only [get_products_comparison, reqW, jsOrElse, h1, h2, h3, List.map_cons, List.map_nil]
  norm_num [mkCurrentOnlyProduct, gA, pD, infoD, statsD, currentStats]

/-- C7: when no comparison period is available, the response is a success
carrying exactly the filtered current rows, each with null previous_week and
changes, the explanatory label, and no previous or changes block in
overall_stats. -/
theorem degraded_current_only_payload (db : DB) (req : Request)
    (ps : List Product) (info : ComparisonInfo) (stats : OverallStats)
    (h : get_products_comparison db req = Response.success ps info stats)
    (hnone : info.comparison_week = none) :
    ps = (currentRows db req.season_filter req.season_filter_exclude req.brand_filter).map
      mkCurrentOnlyProduct ∧
    (∀ p ∈ ps, p.previous_week = none ∧ p.changes = none) ∧
    info.comparison_label = "No comparison data available" ∧
    stats.previous = none ∧ stats.changes = none := by
  obtain ⟨acw, hmax, hbranch⟩ := route_success_inv h
  rcases hbranch with ⟨hres, hps, hinfo, hstats⟩ | ⟨cw, hres, hps, hinfo, hstats⟩
  · refine ⟨hps, ?_, ?_, ?_, ?_⟩
    · intro p hp
      rw [hps] at hp
      obtain ⟨g, hg, rfl⟩ := List.mem_map.mp hp
      exact ⟨rfl, rfl⟩
    · rw [hinfo]
      exact resolve_none_label hres
    · rw [hstats]
    · rw [hstats]
  · rw [hinfo] at hnone
    simp at hnone

/-- concrete instance of C7 on the single-week store. -/
theorem degraded_current_only_payload_witness :
    [pD] = (currentRows dbOne reqW.season_filter reqW.season_filter_exclude
      reqW.brand_filter).map mkCurrentOnlyProduct ∧
    (∀ p ∈ [pD], p.previous_week = none ∧ p.changes = none) ∧
    infoD.comparison_label = "No comparison data available" ∧
    statsD.previous = none ∧ statsD.changes = none :=
  degraded_current_only_payload dbOne reqW [pD] infoD statsD evalOne (by decide)

/-- C6 counterexample: a store whose snapshot table is empty makes the route
answer with the DATABASE_ERROR payload, not with a degraded current-only
success. -/
theorem empty_store_yields_error_cex :
    shpWeeks dbEmptyW = [] ∧
    get_products_comparison dbEmptyW reqW =
      Response.error "DATABASE_ERROR" "Failed to retrieve products comparison from database" := by
  constructor
  · decide
  · decide

/-- C6 as amended: a shortfall after the current week is known (no resolvable
comparison week) degrades to a current-only success response, but the
empty-store case surfaces as the catch-handler error payload with the stable
DATABASE_ERROR return code. -/
theorem resolution_shortfall_handling (db : DB) (req : Request) :
    (shpWeeks db = [] →
      get_products_comparison db req =
        Response.error "DATABASE_ERROR" "Failed to retrieve products comparison from database") ∧
    (shpWeeks db ≠ [] →
      ∃ ps info stats, get_products_comparison db req = Response.success ps info stats) := by
  constructor
  · intro h0
    unfold get_products_comparison
    rw [h0]
    rfl
  · intro hne
    obtain ⟨m, hm⟩ := sqlMax_of_ne_nil hne
    unfold get_products_comparison
    rw [hm]
    simp only []
    cases hcw : (resolveComparison db (jsOrElse req.comparison_period "week") m).comparisonWeek
      with
    | none => exact ⟨_, _, _, rfl⟩
    | some cw => exact ⟨_, _, _, rfl⟩

/-- concrete instances of the amended C6: the empty store errors, a nonempty
store succeeds. -/
theorem resolution_shortfall_handling_witness :
    get_products_comparison dbEmptyW reqW =
      Response.error "DATABASE_ERROR" "Failed to retrieve products comparison from database" ∧
    ∃ ps info stats, get_products_comparison dbW reqW = Response.success ps info stats :=
  ⟨(resolution_shortfall_handling dbEmptyW reqW).1 (by decide),
   (resolution_shortfall_handling dbW reqW).2 (by decide)⟩

/-- concatenation of strings is associative. -/
theorem strAppendAssoc (a b c : String) : (a ++ b) ++ c = a ++ (b ++ c) := by
  cases a with
  | mk la =>
    cases b with
    | mk lb =>
      cases c with
      | mk lc =>
        show String.mk ((la ++ lb) ++ lc) = String.mk (la ++ (lb ++ lc))
        rw [List.append_assoc]

/-- the data-existence check leaves the resolution of every granularity
string other than exactly "week" untouched. -/
theorem applyWeekCheck_non_week {db : DB} {cp : String} {r : Resolution} (h : cp ≠ "week") :
    applyWeekCheck db cp r = r := by
  unfold applyWeekCheck
  cases hr : r.comparisonWeek with
  | none => rfl
  | some cw =>
    dsimp only
    rw [if_neg h]

/-- the month branch of the first resolution stage, when the earliest key
differs from the current one. -/
theorem resolveBase_month {db : DB} {acw e : String}
    (hmin : sqlMin (shpWeeks db) = some e) (hne : e ≠ acw) :
    resolveBase db "month" acw = ⟨some e,
      if jsSub (parseIntOpt (splitYW acw).2) (parseIntOpt (splitYW e).2) = some 1 then
        "Last Week"
      else jsNumToString (jsSub (parseIntOpt (splitYW acw).2) (parseIntOpt (splitYW e).2))
        ++ " weeks ago"⟩ := by
  unfold resolveBase
  dsimp only
  rw [if_pos rfl, hmin]
  dsimp only
  rw [if_pos hne]

/-- the month branch of the first resolution stage, when the earliest key is
the current one. -/
theorem resolveBase_month_single {db : DB} {acw : String}
    (hmin : sqlMin (shpWeeks db) = some acw) :
    resolveBase db "month" acw = ⟨none, "No comparison data available"⟩ := by
  unfold resolveBase
  dsimp only
  rw [if_pos rfl, hmin]
  dsimp only
  rw [if_neg (fun hh : acw ≠ acw => hh rfl)]

/-- C4: for month granularity the resolved comparison week is the earliest
snapshot key when it is strictly below the current (maximum) key; when the
earliest key is the current one, resolution fails with the explanatory label;
and on keys 2025-W10 through 2025-W27 the resolved week is 2025-W10 with a
17-weeks-ago label. -/
theorem month_resolution_uses_earliest (db : DB) (acw e : String)
    (hmax : sqlMax (shpWeeks db) = some acw)
    (hmin : sqlMin (shpWeeks db) = some e) :
    (strLt e acw = true → (resolveComparison db "month" acw).comparisonWeek = some e) ∧
    (e = acw → (resolveComparison db "month" acw).comparisonWeek = none ∧
      (resolveComparison db "month" acw).comparisonLabel = "No comparison data available") ∧
    (acw = "2025-W27" → e = "2025-W10" →
      (resolveComparison db "month" acw).comparisonWeek = some "2025-W10" ∧
      (resolveComparison db "month" acw).comparisonLabel = "17 weeks ago") := by
  have hnw : ("month" : String) ≠ "week" := by decide
  refine ⟨?_, ?_, ?_⟩
  · intro hlt
    have hne : e ≠ acw := by
      intro hEq
      rw [hEq, strLt_irrefl] at hlt
      exact Bool.false_ne_true hlt
    unfold resolveComparison
    rw [resolveBase_month hmin hne, applyWeekCheck_non_week hnw]
  · intro hEq
    subst hEq
    unfold resolveComparison
    rw [resolveBase_month_single hmin, applyWeekCheck_non_week hnw]
    exact ⟨rfl, rfl⟩
  · intro ha hb
    subst ha
    subst hb
    have hne : ("2025-W10" : String) ≠ "2025-W27" := by decide
    unfold resolveComparison
    rw [resolveBase_month hmin hne, applyWeekCheck_non_week hnw]
    constructor
    · rfl
    · decide

/-- concrete instance of C4 on the 2025-W10 through 2025-W27 store. -/
theorem month_resolution_uses_earliest_witness :
    (resolveComparison dbMonth "month" "2025-W27").comparisonWeek = some "2025-W10" ∧
    (resolveComparison dbMonth "month" "2025-W27").comparisonLabel = "17 weeks ago" :=
  (month_resolution_uses_earliest dbMonth "2025-W27" "2025-W10"
    (by decide) (by decide)).2.2 rfl rfl

/-- C5: for week granularity the candidate comparison key is the current week
number minus one in the same year, zero-padded to two digits, rolling over to
week 52 of the previous year when the current week number is 1; the candidate
is kept only when at least one snapshot row exists for it, and otherwise
resolution fails with the explanatory label. -/
theorem week_resolution_candidate_and_check (db : DB) (acw ys ws : String) (y n : ℤ)
    (hsplit : splitYW acw = (ys, some ws))
    (hy : parseIntJS ys = some y) (hw : parseIntJS ws = some n) :
    (2 ≤ n → weekCandidate acw = toString y ++ "-W" ++ padStart2 (toString (n - 1))) ∧
    (n = 1 → weekCandidate acw = toString (y - 1) ++ "-W52") ∧
    (resolveComparison db "week" acw).comparisonWeek =
      (if 0 < (snapshotRowsAt db (weekCandidate acw)).length then some (weekCandidate acw)
       else none) ∧
    ((resolveComparison db "week" acw).comparisonWeek = none →
      (resolveComparison db "week" acw).comparisonLabel = "No comparison data available") := by
  refine ⟨?_, ?_, ?_, fun hn => resolve_none_label hn⟩
  · intro h2
    have hlt : ¬(n - 1 < 1) := by omega
    simp [weekCandidate, hsplit, hy, hw, parseIntOpt, jsSub, jsLtNum, jsNumToString, hlt]
  · intro h1
    subst h1
    have hws : ("-W" : String) ++ "52" = "-W52" := by decide
    have h52 : padStart2 (toString (52 : ℤ)) = "52" := by decide
    simp only [weekCandidate, hsplit, hy, hw, parseIntOpt, jsSub, jsLtNum, jsNumToString]
    norm_num [h52]
    rw [strAppendAssoc, hws]
  · have hbase : resolveBase db "week" acw
        = ⟨some (weekCandidate acw), "Previous Week"⟩ := by
      unfold resolveBase
      dsimp only
      rw [if_neg (by decide : ¬("week" : String) = "month")]
    unfold resolveComparison applyWeekCheck
    rw [hbase]
    dsimp only
    rw [if_pos rfl, apply_ite Resolution.comparisonWeek]

/-- concrete instance of C5 on the sample store. -/
theorem week_resolution_candidate_and_check_witness :
    (2 ≤ (27 : ℤ) → weekCandidate "2025-W27"
      = toString (2025 : ℤ) ++ "-W" ++ padStart2 (toString ((27 : ℤ) - 1))) ∧
    ((27 : ℤ) = 1 → weekCandidate "2025-W27" = toString ((2025 : ℤ) - 1) ++ "-W52") ∧
    (resolveComparison dbW "week" "2025-W27").comparisonWeek =
      (if 0 < (snapshotRowsAt dbW (weekCandidate "2025-W27")).length then
        some (weekCandidate "2025-W27")
       else none) ∧
    ((resolveComparison dbW "week" "2025-W27").comparisonWeek = none →
      (resolveComparison dbW "week" "2025-W27").comparisonLabel
        = "No comparison data available") :=
  week_resolution_candidate_and_check dbW "2025-W27" "2025" "27" 2025 27
    (by decide) (by decide) (by decide)

/-- the expected comparison_info of the unrecognized-granularity response on
the single-week store. -/
def infoF : ComparisonInfo :=
  ⟨"2025-W27", some "2025-W26", "fortnight", "Previous Week", 0, 1, 1⟩

/-- the expected overall_stats of the unrecognized-granularity response on
the single-week store. -/
def statsF : OverallStats := ⟨⟨10, 4, 5, 1, 1⟩, some zeroStat, some zeroChanges⟩

/-- evaluation of the route on the single-week store with an unrecognized
granularity string: the full comparison path is taken against a week with no
data. -/
theorem evalF : get_products_comparison dbOne reqF = Response.success [pD] infoF statsF := by
  have h1 : sqlMax (shpWeeks dbOne) = some "2025-W27" := by decide
  have h2 : resolveComparison dbOne "fortnight" "2025-W27"
      = ⟨some "2025-W26", "Previous Week"⟩ := by decide
  have h3 : currentRows dbOne none none none = [gA] := by decide
  have h4 : joinPrev dbOne "2025-W26" gA = [(gA, none)] := by decide
  have h0 : jsOrElse (some "fortnight") "week" = "fortnight" := by decide
  simp only [get_products_comparison, reqF, h0, h1, h2, h3, h4,
    List.flatMap_cons, List.flatMap_nil, List.append_nil, List.map_cons, List.map_nil]
  norm_num [mkComparisonProduct, annualProfitChange, annualProfitChangePercent, soldQtyChange,
    soldQtyChangePercent, avgProfitPerUnitChange, avgProfitPerUnitChangePercent, gA, pD,
    infoF, statsF, currentStats, prevStats, prevList, changeStats, zeroStat, zeroChanges,
    List.filter, List.filterMap]

/-- C10 counterexample: on a store holding only the current week, the
granularity string fortnight is not treated like week: the week path degrades
to a current-only response (no comparison week), while fortnight skips the
data-existence check and answers with comparison week 2025-W26. -/
theorem unrecognized_period_skips_check_cex :
    (∃ ps info stats, get_products_comparison dbOne reqF = Response.success ps info stats ∧
      info.comparison_period = "fortnight" ∧ info.comparison_week = some "2025-W26") ∧
    (∃ ps info stats, get_products_comparison dbOne reqW = Response.success ps info stats ∧
      info.comparison_period = "week" ∧ info.comparison_week = none) :=
  ⟨⟨[pD], infoF, statsF, evalF, rfl, rfl⟩, ⟨[pD], infoD, statsD, evalOne, rfl, rfl⟩⟩

/-- C10 as amended: every granularity string other than month, the defaulted
week value included, takes the previous-week candidate computation and is
echoed in comparison_info.comparison_period; but the candidate is verified
against the snapshot store only when the string is exactly week — any other
string keeps the unverified candidate. -/
theorem non_month_period_week_path (db : DB) (req : Request) (acw : String) :
    (jsOrElse req.comparison_period "week" ≠ "month" →
      resolveBase db (jsOrElse req.comparison_period "week") acw
        = ⟨some (weekCandidate acw), "Previous Week"⟩ ∧
      (jsOrElse req.comparison_period "week" = "week" →
        (resolveComparison db (jsOrElse req.comparison_period "week") acw).comparisonWeek =
          (if 0 < (snapshotRowsAt db (weekCandidate acw)).length then
            some (weekCandidate acw)
           else none)) ∧
      (jsOrElse req.comparison_period "week" ≠ "week" →
        resolveComparison db (jsOrElse req.comparison_period "week") acw
          = ⟨some (weekCandidate acw), "Previous Week"⟩)) ∧
    (∀ ps info stats, get_products_comparison db req = Response.success ps info stats →
      info.comparison_period = jsOrElse req.comparison_period "week") := by
  constructor
  · intro hm
    have hbase : resolveBase db (jsOrElse req.comparison_period "week") acw
        = ⟨some (weekCandidate acw), "Previous Week"⟩ := by
      unfold resolveBase
      dsimp only
      rw [if_neg hm]
    refine ⟨hbase, ?_, ?_⟩
    · intro hwk
      unfold resolveComparison applyWeekCheck
      rw [hbase]
      dsimp only
      rw [if_pos hwk, apply_ite Resolution.comparisonWeek]
    · intro hwk
      unfold resolveComparison
      rw [hbase, applyWeekCheck_non_week hwk]
  · intro ps info stats h
    obtain ⟨acw2, hmax, hbranch⟩ := route_success_inv h
    rcases hbranch with ⟨_, _, hinfo, _⟩ | ⟨cw, _, _, hinfo, _⟩ <;> rw [hinfo]

/-- concrete instance of the amended C10: the fortnight granularity takes the
previous-week candidate without the data-existence check. -/
theorem non_month_period_week_path_witness :
    resolveComparison dbOne (jsOrElse reqF.comparison_period "week") "2025-W27"
      = ⟨some (weekCandidate "2025-W27"), "Previous Week"⟩ :=
  ((non_month_period_week_path dbOne reqF "2025-W27").1 (by decide)).2.2 (by decide)

/-- C9 counterexample: a store whose only product has a NULL brand yields no
UKD option — the brand query discards NULL and empty brands, so they never
make the catch-all appear. -/
theorem null_brand_no_ukd_option_cex :
    (∃ g ∈ dbNullBrand.gp, g.channel = "SHP" ∧ g.brand = none) ∧
    get_brands dbNullBrand = ["All"] ∧
    "UKD" ∉ get_brands dbNullBrand := by
  refine ⟨⟨⟨"N", "SHP", some 1, some 1, some 1, none, some 1⟩, ?_, ?_, ?_⟩, ?_, ?_⟩ <;> decide

/-- membership in the get_brands option list, characterized over the
store. -/
theorem mem_get_brands_iff (db : DB) (x : String) :
    x ∈ get_brands db ↔ (x = "All" ∨
      (x ∈ brandAllowList ∧ ∃ g ∈ db.gp, g.channel = "SHP" ∧
        ∃ s, g.brand = some s ∧ s ≠ "" ∧ strToLower s = strToLower x) ∨
      (x = "UKD" ∧ ∃ g ∈ db.gp, g.channel = "SHP" ∧
        ∃ s, g.brand = some s ∧ s ≠ "" ∧ ∀ b ∈ brandAllowList,
          strToLower b ≠ strToLower s)) := by
  have hAmem : ∀ d : String,
      (d ∈ ((db.gp.filter (fun g => decide (g.channel = "SHP") && decide (g.brand ≠ none)
          && decide (g.brand ≠ some ""))).filterMap (fun g => g.brand)).dedup) ↔
      (∃ g ∈ db.gp, g.channel = "SHP" ∧ g.brand = some d ∧ d ≠ "") := by
    intro d
    rw [List.mem_dedup, List.mem_filterMap]
    constructor
    · rintro ⟨g, hg, hgb⟩
      have hf := List.mem_filter.mp hg
      have hc : g.channel = "SHP" ∧ g.brand ≠ none ∧ g.brand ≠ some "" := by
        simpa [and_assoc] using hf.2
      refine ⟨g, hf.1, hc.1, hgb, ?_⟩
      intro hd
      exact hc.2.2 (by rw [hgb, hd])
    · rintro ⟨g, hg, hch, hb, hne⟩
      refine ⟨g, List.mem_filter.mpr ⟨hg, ?_⟩, hb⟩
      simp [hch, hb, hne]
  unfold get_brands
  dsimp only
  simp only [List.mem_cons, List.mem_append]
  constructor
  · rintro ((rfl | hmem) | hukd)
    · exact Or.inl rfl
    · have hf := List.mem_filter.mp hmem
      obtain ⟨d, hdA, hdec⟩ := List.any_eq_true.mp hf.2
      rw [decide_eq_true_eq] at hdec
      obtain ⟨g, hg, hch, hb, hne⟩ := (hAmem d).mp hdA
      exact Or.inr (Or.inl ⟨hf.1, g, hg, hch, d, hb, hne, hdec⟩)
    · by_cases hU : (((db.gp.filter (fun g => decide (g.channel = "SHP")
          && decide (g.brand ≠ none) && decide (g.brand ≠ some ""))).filterMap
            (fun g => g.brand)).dedup.any
          (fun d => ! brandAllowList.any (fun b => strToLower b = strToLower d))) = true
      · rw [if_pos hU] at hukd
        simp only [List.mem_singleton] at hukd
        subst hukd
        obtain ⟨d, hdA, hd⟩ := List.any_eq_true.mp hU
        rw [Bool.not_eq_true'] at hd
        have hall : ∀ b ∈ brandAllowList, strToLower b ≠ strToLower d := by
          intro b hb2
          have := List.any_eq_false.mp hd b hb2
          simpa using this
        obtain ⟨g, hg, hch, hb, hne⟩ := (hAmem d).mp hdA
        exact Or.inr (Or.inr ⟨rfl, g, hg, hch, d, hb, hne, hall⟩)
      · rw [if_neg hU] at hukd
        simp at hukd
  · rintro (rfl | ⟨hxallow, g, hg, hch, s, hb, hne, hlow⟩ |
      ⟨rfl, g, hg, hch, s, hb, hne, hforall⟩)
    · exact Or.inl (Or.inl rfl)
    · refine Or.inl (Or.inr (List.mem_filter.mpr ⟨hxallow, ?_⟩))
      exact List.any_eq_true.mpr ⟨s, (hAmem s).mpr ⟨g, hg, hch, hb, hne⟩, by simp [hlow]⟩
    · refine Or.inr ?_
      have hU : (((db.gp.filter (fun g => decide (g.channel = "SHP")
          && decide (g.brand ≠ none) && decide (g.brand ≠ some ""))).filterMap
            (fun g => g.brand)).dedup.any
          (fun d => ! brandAllowList.any (fun b => strToLower b = strToLower d))) = true := by
        refine List.any_eq_true.mpr ⟨s, (hAmem s).mpr ⟨g, hg, hch, hb, hne⟩, ?_⟩
        rw [Bool.not_eq_true']
        refine List.any_eq_false.mpr ?_
        intro b hb2
        simpa using hforall b hb2
      rw [if_pos hU]
      exact List.mem_singleton.mpr rfl

/-- C9 as amended: the option list always contains All; it contains an
allow-listed brand exactly when some SHP product has that brand up to ASCII
case; and it contains UKD exactly when some SHP product has a non-null,
non-empty brand outside the allow-list up to ASCII case — NULL and empty
brands never contribute an option. -/
theorem brand_options_membership (db : DB) :
    "All" ∈ get_brands db ∧
    (∀ b ∈ brandAllowList,
      (b ∈ get_brands db ↔ ∃ g ∈ db.gp, g.channel = "SHP" ∧
        ∃ s, g.brand = some s ∧ s ≠ "" ∧ strToLower s = strToLower b)) ∧
    ("UKD" ∈ get_brands db ↔ ∃ g ∈ db.gp, g.channel = "SHP" ∧
      ∃ s, g.brand = some s ∧ s ≠ "" ∧ ∀ b ∈ brandAllowList,
        strToLower b ≠ strToLower s) := by
  have hAllowNe : ∀ b ∈ brandAllowList, b ≠ "All" ∧ b ≠ "UKD" := by decide
  have hUKDnotAllow : ("UKD" : String) ∉ brandAllowList := by decide
  refine ⟨?_, ?_, ?_⟩
  · exact (mem_get_brands_iff db "All").mpr (Or.inl rfl)
  · intro b hb
    rw [mem_get_brands_iff]
    constructor
    · rintro (hAll | ⟨_, h⟩ | ⟨hU, _⟩)
      · exact absurd hAll (hAllowNe b hb).1
      · exact h
      · exact absurd hU (hAllowNe b hb).2
    · intro h
      exact Or.inr (Or.inl ⟨hb, h⟩)
  · rw [mem_get_brands_iff]
    constructor
    · rintro (hAll | ⟨hmem, _⟩ | ⟨_, h⟩)
      · exact absurd hAll (by decide)
      · exact absurd hmem hUKDnotAllow
      · exact h
    · intro h
      exact Or.inr (Or.inr ⟨rfl, h⟩)

/-- concrete instance of the amended C9 on the mixed-brand store. -/
theorem brand_options_membership_witness :
    ("Rieker" ∈ get_brands dbBrands ↔ ∃ g ∈ dbBrands.gp, g.channel = "SHP" ∧
      ∃ s, g.brand = some s ∧ s ≠ "" ∧ strToLower s = strToLower "Rieker") :=
  (brand_options_membership dbBrands).2.1 "Rieker" (by decide)

end BC
